import Mathlib

/-!
Verification development for the `ipython_pg` IPython extension
(files `ipython_pg/ipython_extension.py` and `ipython_pg/green_mode.py`).

The development shallowly embeds the two core mechanisms of the package:

* the template substitution engine `_python_tpl` (regex
  `(?<!\$)\$\x7b([^\x7d:]*)(?::([si]))?\x7d`, per-match evaluation,
  `str.replace`-based rewriting, and the final `psycopg2.sql.SQL(txt).format`
  pass), together with the `query` wrapper that guards substitution with a
  substring test and only afterwards obtains a cursor and executes;
* the cooperative cancellation monitor `wait_select` of `green_mode.py`,
  embedded as a function over explicit poll/interrupt traces, plus the
  green-mode deactivate/reactivate bracketing of `pg_copy`.

Python strings become Lean `String`/`List Char`; evaluated Python values
become the inductive `PyVal`; the interactive shell evaluator `self.shell.ev`
becomes an injected lookup `Ctx := String -> Option PyVal` (per the spec's
design note, the core only needs a key-value lookup; a failed lookup models
the evaluation raising); exceptions become `Except`.
-/

namespace IpyPg

/-- Decidable equality for `Except`, so concrete runs of the embedded
functions can be checked by `decide`. -/
instance {ε α : Type} [DecidableEq ε] [DecidableEq α] :
    DecidableEq (Except ε α) := fun a b =>
  match a, b with
  | .ok x, .ok y =>
    if h : x = y then .isTrue (by rw [h]) else .isFalse (by simp [h])
  | .error x, .error y =>
    if h : x = y then .isTrue (by rw [h]) else .isFalse (by simp [h])
  | .ok _, .error _ => .isFalse (by simp)
  | .error _, .ok _ => .isFalse (by simp)

/-- Evaluated Python values as far as the claims need them: integers and
strings.  (`PyVal.str` values support the `split`/identifier path of the
`:i` format tag; any other value there raises a type error, like iterating
a non-iterable in Python.) -/
inductive PyVal
  | int (n : Int)
  | str (s : String)
deriving DecidableEq

/-- Evaluation context standing for `self.shell.ev`: a lookup of the
caller's live variables.  `none` models the evaluation raising (e.g. a
`NameError` for an unknown name). -/
def Ctx : Type := String → Option PyVal

/-- Errors raised by the substitution pipeline (`_python_tpl` and the
`psycopg2.sql.SQL.format` call inside it). -/
inductive TplErr
  | evalError (expr : String)      -- `self.shell.ev(expr)` raised
  | identTypeError (expr : String) -- `:i` on a non-string, non-iterable value
  | specError                      -- format: "no format specification supported by SQL"
  | convError                      -- format: "no format conversion supported by SQL"
  | keyError (name : String)       -- format: named field, but no keyword arguments
  | indexError                     -- format: positional field beyond the argument list
  | unmatchedBrace                 -- formatter: opening brace never closed
  | singleBrace                    -- formatter: lone closing brace in literal text
deriving DecidableEq

/-- One non-overlapping left-to-right pass of Python `str.replace`,
on character lists, with explicit fuel (any fuel at least the length of
the subject string gives the full replacement; the patterns used by the
engine are never empty). -/
def replaceAux (old new : List Char) : Nat → List Char → List Char
  | 0, s => s
  | _ + 1, [] => []
  | fuel + 1, c :: rest =>
    if old.isPrefixOf (c :: rest) then
      new ++ replaceAux old new fuel ((c :: rest).drop old.length)
    else
      c :: replaceAux old new fuel rest

/-- Python `str.replace(old, new)` (all non-overlapping occurrences). -/
def strReplace (s old new : String) : String :=
  (replaceAux old.toList new.toList s.length s.toList).asString

/-- Number of non-overlapping occurrences of `pat` in a string, scanning
left to right — Python `str.count`.  Used to count `%s` parameter markers. -/
def countOccAux (pat : List Char) : Nat → List Char → Nat
  | 0, _ => 0
  | _ + 1, [] => 0
  | fuel + 1, c :: rest =>
    if pat.isPrefixOf (c :: rest) then
      1 + countOccAux pat fuel ((c :: rest).drop pat.length)
    else
      countOccAux pat fuel rest

/-- Occurrences of the driver-native parameter marker `%s` in a text. -/
def countMarkers (s : String) : Nat :=
  countOccAux ['%', 's'] s.length s.toList

/-- The single-quote character, used by the literal-quoting model. -/
def sq : String := String.mk [Char.ofNat 39]

/-- Model of `psycopg2.sql.Literal(v).as_string`: the dialect quoting of a
value spliced into the statement text (strings single-quoted with quote
doubling, integers in decimal). -/
def litQuote : PyVal → String
  | .int n => toString n
  | .str s => sq ++ strReplace s sq (sq ++ sq) ++ sq

/-- Model of `psycopg2.sql.Identifier(s).as_string`: double-quoted with
quote doubling. -/
def identQuote (s : String) : String :=
  "\"" ++ strReplace s "\"" "\"\"" ++ "\""

/-- Python `str.split(".")` on the qualified-name path of the `:i` tag:
split at every dot, keeping empty components (the empty string splits to
one empty component). -/
def splitDotAux (acc : List Char) : List Char → List String
  | [] => [String.mk acc.reverse]
  | c :: rest =>
    if c = '.' then String.mk acc.reverse :: splitDotAux [] rest
    else splitDotAux (c :: acc) rest

/-- `s.split(".")`. -/
def splitDot (s : String) : List String := splitDotAux [] s.toList

/-- The values spliced into the text by the `:s` / `:i` format tags
(the elements of `_python_tpl`'s `f_args` list): either
`psycopg2.sql.Literal(ev)` or `psycopg2.sql.SQL(".").join(Identifier(e)
for e in ev.split("."))`. -/
inductive FmtArg
  | lit (v : PyVal)
  | identChain (parts : List String)
deriving DecidableEq

/-- Rendering of a spliced fragment (its `as_string`). -/
def fmtArgRender : FmtArg → String
  | .lit v => litQuote v
  | .identChain ps => String.intercalate "." (ps.map identQuote)

/-- A component of the `psycopg2.sql.Composed` value produced by
`SQL.format`: a plain SQL chunk or a spliced fragment. -/
inductive SqlPart
  | sqls (s : String)
  | arg (a : FmtArg)
deriving DecidableEq

/-- `as_string` of one component. -/
def sqlPartRender : SqlPart → String
  | .sqls s => s
  | .arg a => fmtArgRender a

/-- `as_string` of the whole composed statement: concatenation of the
components. -/
def renderParts (ps : List SqlPart) : String :=
  String.join (ps.map sqlPartRender)

/-- Resolve one `\x7b...\x7d` replacement field of the format string, as
`psycopg2.sql.SQL.format` does when called with positional arguments only
(as `_python_tpl` always does: `SQL(txt).format(*f_args)`):
a non-empty format spec or a conversion raises; an empty field name
consumes the next positional argument; an all-digit name indexes the
positional arguments; any other name is looked up among keyword
arguments — of which there are none, so it raises a `KeyError`.
(Python's error on mixing automatic and manual numbering is not modelled;
no text the engine produces or that the claims exercise mixes them.) -/
def fieldToPart (args : List FmtArg) (idx : Nat) (content : List Char) :
    Except TplErr (SqlPart × Nat) :=
  let nameCs := content.takeWhile (fun c => c ≠ ':' ∧ c ≠ '!')
  let after := content.drop nameCs.length
  let name := String.mk nameCs
  let resolve : Except TplErr (SqlPart × Nat) :=
    if name = "" then
      match args.get? idx with
      | some a => .ok (.arg a, idx + 1)
      | none => .error .indexError
    else if nameCs.all Char.isDigit then
      match name.toNat? with
      | some n =>
        match args.get? n with
        | some a => .ok (.arg a, idx)
        | none => .error .indexError
      | none => .error .indexError
    else
      .error (.keyError name)
  match after with
  | [] => resolve
  | ':' :: spec => if spec = [] then resolve else .error .specError
  | '!' :: [] => .error .convError
  | '!' :: _ :: [] => .error .convError
  | '!' :: _ :: ':' :: spec => if spec = [] then .error .convError else .error .specError
  | _ => .error .convError

/-- The scanner of `psycopg2.sql.SQL.format` (Python's
`string.Formatter().parse` loop): literal text is accumulated, `\x7b\x7b`
and `\x7d\x7d` are brace escapes, `\x7b...\x7d` is a replacement field, a
lone brace is an error.  `acc` holds the pending literal characters in
reverse; fuel decreases once per consumed character group. -/
def formatScan (args : List FmtArg) : Nat → Nat → List Char → List Char →
    Except TplErr (List SqlPart)
  | _, _, acc, [] =>
    .ok (if acc.isEmpty then [] else [SqlPart.sqls (String.mk acc.reverse)])
  | 0, _, _, _ => .error .unmatchedBrace
  | fuel + 1, idx, acc, c :: rest =>
    if c = '\x7b' then
      match rest with
      | [] => .error .unmatchedBrace
      | d :: rest2 =>
        if d = '\x7b' then
          formatScan args fuel idx ('\x7b' :: acc) rest2
        else
          let content := rest.takeWhile (fun x => x ≠ '\x7d')
          if content.length = rest.length then
            .error .unmatchedBrace
          else
            let rest3 := rest.drop (content.length + 1)
            match fieldToPart args idx content with
            | .error e => .error e
            | .ok (p, idx2) =>
              match formatScan args fuel idx2 [] rest3 with
              | .error e => .error e
              | .ok ps =>
                .ok ((if acc.isEmpty then [] else
                       [SqlPart.sqls (String.mk acc.reverse)]) ++ p :: ps)
    else if c = '\x7d' then
      match rest with
      | d :: rest2 =>
        if d = '\x7d' then formatScan args fuel idx ('\x7d' :: acc) rest2
        else .error .singleBrace
      | [] => .error .singleBrace
    else
      formatScan args fuel idx (c :: acc) rest

/-- `psycopg2.sql.SQL(txt).format(*args)` with positional arguments only. -/
def sqlFormat (txt : String) (args : List FmtArg) : Except TplErr (List SqlPart) :=
  formatScan args (txt.length + 1) 0 [] txt.toList

/-- Body scanner for one placeholder: having consumed a dollar sign and an
opening brace, read `[^\x7d:]*`, then either a closing brace (no format
tag) or a colon, a tag in `[si]`, and the closing brace — exactly the
regex alternatives of `(?<!\$)\$\x7b([^\x7d:]*)(?::([si]))?\x7d`.
Returns the expression text, the tag (`""` when absent) and the remaining
characters, or `none` when the regex cannot match at this position. -/
def scanPhAux (acc : List Char) : List Char → Option (String × String × List Char)
  | [] => none
  | c :: rest =>
    if c = '\x7d' then
      some (String.mk acc.reverse, "", rest)
    else if c = ':' then
      match rest with
      | f :: d :: rest2 =>
        if (f = 's' ∨ f = 'i') ∧ d = '\x7d' then
          some (String.mk acc.reverse, String.mk [f], rest2)
        else none
      | _ => none
    else
      scanPhAux (c :: acc) rest

/-- `re.findall` for the placeholder regex
`(?<!\$)\$\x7b([^\x7d:]*)(?::([si]))?\x7d`: left-to-right, non-overlapping
matches, each a pair (expression, format tag with `""` for absent), with
the negative lookbehind checked against the character physically
preceding the dollar sign. -/
def findallAux : Nat → Option Char → List Char → List (String × String)
  | 0, _, _ => []
  | _ + 1, _, [] => []
  | fuel + 1, prev, c :: rest =>
    if c = '$' ∧ prev ≠ some '$' then
      match rest with
      | b :: rest2 =>
        if b = '\x7b' then
          match scanPhAux [] rest2 with
          | some (expr, fmt, rest3) =>
            (expr, fmt) :: findallAux fuel (some '\x7d') rest3
          | none => findallAux fuel (some c) rest
        else
          findallAux fuel (some c) rest
      | [] => []
    else
      findallAux fuel (some c) rest

/-- All placeholder matches of a text, in order. -/
def findall (s : String) : List (String × String) :=
  findallAux (s.length + 1) none s.toList

/-- Intermediate state of `_python_tpl`'s loop: the partially rewritten
text and the two argument lists `q_args` (bound query parameters) and
`f_args` (fragments for the final `format`). -/
structure TplState where
  txt : String
  qArgs : List PyVal
  fArgs : List FmtArg
deriving DecidableEq

/-- One iteration of the `for expr, fmt in rxp.findall(txt)` loop of
`_python_tpl`: evaluate the expression (raising on failure); with a format
tag, wrap the value as a literal (`:s`) or as a dot-split identifier chain
(`:i`, raising a type error on non-string values, which are not iterable
in the model) and append it to `f_args`, replacing every occurrence of the
placeholder text by an empty replacement field; without a tag, append the
value to `q_args` and replace every occurrence by the driver marker
`%s`.  Replacement is Python `str.replace`, i.e. it also rewrites
occurrences of the same placeholder text embedded in other contexts. -/
def tplStep (ctx : Ctx) (st : TplState) (m : String × String) :
    Except TplErr TplState :=
  match ctx m.1 with
  | none => .error (.evalError m.1)
  | some ev =>
    if m.2 = "" then
      let pat := "$\x7b" ++ m.1 ++ "\x7d"
      .ok ⟨strReplace st.txt pat "%s", st.qArgs ++ [ev], st.fArgs⟩
    else
      let fa : Except TplErr FmtArg :=
        if m.2 = "s" then
          .ok (.lit ev)
        else
          match ev with
          | .str s => .ok (.identChain (splitDot s))
          | .int _ => .error (.identTypeError m.1)
      match fa with
      | .error e => .error e
      | .ok a =>
        let pat := "$\x7b" ++ m.1 ++ ":" ++ m.2 ++ "\x7d"
        .ok ⟨strReplace st.txt pat "\x7b\x7d", st.qArgs, st.fArgs ++ [a]⟩

/-- The template substitution engine `_python_tpl`: run the regex, fold the
loop over the matches, then apply `psycopg2.sql.SQL(txt).format(*f_args)`
and return the composed statement together with the bound values
`q_args`. -/
def pythonTpl (sql : String) (ctx : Ctx) :
    Except TplErr (List SqlPart × List PyVal) :=
  match (findall sql).foldlM (tplStep ctx) ⟨sql, [], []⟩ with
  | .error e => .error e
  | .ok st =>
    match sqlFormat st.txt st.fArgs with
    | .error e => .error e
    | .ok ps => .ok (ps, st.qArgs)

/-- Substring scan for the two-character sequence of the guard. -/
def hasDollarBrace : List Char → Bool
  | [] => false
  | '$' :: '\x7b' :: _ => true
  | _ :: rest => hasDollarBrace rest

/-- The guard `"$\x7b" in sql` of `query`. -/
def containsDollarBrace (s : String) : Bool :=
  hasDollarBrace s.toList

/-- The substitution step of `query` (lines 285–289): leave the text alone
with an empty bound list unless it contains the substring `$\x7b`, in
which case run `_python_tpl`.  The composed result is rendered to its
statement text (`as_string`), which is what the driver receives. -/
def querySubst (sql : String) (ctx : Ctx) :
    Except TplErr (String × List PyVal) :=
  if containsDollarBrace sql then
    match pythonTpl sql ctx with
    | .error e => .error e
    | .ok (ps, qa) => .ok (renderParts ps, qa)
  else
    .ok (sql, [])

/-!
### Cooperative cancellation monitor (`green_mode.wait_select`)

The loop is embedded over an explicit trace: one `Step` per loop
iteration, recording what `conn.poll()` does and — when the poll asks for
readiness — whether a `KeyboardInterrupt` arrives during the bounded
`select` wait and whether the ensuing `conn.cancel()` call raises.
(Interrupts delivered at the well-defined suspension points, the
readiness waits, are modelled; the `try` block in the source would catch
an interrupt anywhere in its body the same way.)  An exhausted trace
stands for the still-running loop (`while 1` never exits by itself). -/

/-- What one `conn.poll()` call does: the three recognised
`psycopg2.extensions` states, an unrecognised state (the code raises
`conn.OperationalError("bad state from poll: ...")`), or `poll` itself
raising a database error (e.g. the server error induced by a cancel). -/
inductive PollState
  | ok
  | read
  | write
  | bad (code : Nat)
  | raiseErr
deriving DecidableEq

/-- What happens during the bounded readiness wait of an iteration:
nothing, or a `KeyboardInterrupt`, in which case `cancelRaises` records
whether the subsequent `conn.cancel()` call raises. -/
inductive WaitEvent
  | quiet
  | interrupted (cancelRaises : Bool)
deriving DecidableEq

/-- One loop iteration of the environment's behaviour. -/
structure Step where
  poll : PollState
  wait : WaitEvent
deriving DecidableEq

/-- How the loop ended. -/
inductive Outcome
  | done        -- `break` on `POLL_OK`
  | badState (code : Nat) -- the explicit `raise conn.OperationalError(...)`
  | pollError   -- a database error raised by `conn.poll()` itself
  | cancelError -- an error raised by `conn.cancel()` inside the interrupt handler
  | running     -- trace exhausted with the loop still going
deriving DecidableEq

/-- Observable result of running the loop on a trace: the outcome, the
number of readiness waits entered, the number of `conn.cancel()` calls
made, and the unconsumed remainder of the trace. -/
structure RunResult where
  outcome : Outcome
  waits : Nat
  cancels : Nat
  rest : List Step
deriving DecidableEq

/-- `green_mode.wait_select`, over a trace.  Per iteration: poll; on
`POLL_OK` break; on `POLL_READ`/`POLL_WRITE` enter the bounded `select`
wait — if a `KeyboardInterrupt` arrives there, the handler calls
`conn.cancel()` and, when that call itself raises, the exception
propagates out of the loop (nothing catches it); otherwise `continue`;
on any other state raise `OperationalError`.  A timeout of the bounded
wait simply re-enters the loop, i.e. is the `quiet` case. -/
def wait_select : List Step → RunResult
  | [] => ⟨.running, 0, 0, []⟩
  | s :: rest =>
    match s.poll with
    | .ok => ⟨.done, 0, 0, rest⟩
    | .bad c => ⟨.badState c, 0, 0, rest⟩
    | .raiseErr => ⟨.pollError, 0, 0, rest⟩
    | .read | .write =>
      match s.wait with
      | .quiet =>
        let r := wait_select rest
        ⟨r.outcome, r.waits + 1, r.cancels, r.rest⟩
      | .interrupted true => ⟨.cancelError, 1, 1, rest⟩
      | .interrupted false =>
        let r := wait_select rest
        ⟨r.outcome, r.waits + 1, r.cancels + 1, r.rest⟩

/-- Number of interrupts the trace delivers (at steps that actually reach
a readiness wait). -/
def interruptsIn : List Step → Nat
  | [] => 0
  | s :: rest =>
    (match s.poll, s.wait with
     | .read, .interrupted _ => 1
     | .write, .interrupted _ => 1
     | _, _ => 0) + interruptsIn rest

/-- `true` when no cancel attempt in the trace raises. -/
def noCancelFail (t : List Step) : Bool :=
  t.all fun s =>
    match s.wait with
    | .interrupted true => false
    | _ => true

/-!
### Green-mode bracketing of `pg_copy`

`pg_copy` reads the session flag `self.green_mode` into `_reactivate`;
when set, it deactivates the process-wide wait callback before the upload
and reactivates it in a `finally` block, on the normal path and on the
exception path (where it first rolls the connection back and re-raises)
alike. -/

/-- Observable effects of one `pg_copy` run on the wait-strategy state:
whether the strategy was active while the upload ran, whether it is
active after the command finishes (by return or by raising), and whether
the command raised / rolled back / committed. -/
structure CopyRun where
  activeDuringUpload : Bool
  activeAfter : Bool
  raised : Bool
  rolledBack : Bool
  committed : Bool
deriving DecidableEq

/-- `pg_copy` (lines 608–624), abstracted to the wait-strategy state:
`greenFlag` is `self.green_mode`, `activeBefore` the wait strategy's state
on entry, `uploadOk` whether the copy/commit body succeeds.  When
`greenFlag` is set the strategy is deactivated before the upload and the
`finally` block reactivates it on every exit path; otherwise the state is
left untouched. -/
def pg_copy (greenFlag activeBefore uploadOk : Bool) : CopyRun :=
  let during := if greenFlag then false else activeBefore
  let after := if greenFlag then true else during
  if uploadOk then
    ⟨during, after, false, false, true⟩
  else
    ⟨during, after, true, true, false⟩

/-!
### Connection-requiring magics (`_dbconn` and friends)

The stored connection is `Option Nat` (a connection id or `None`); the
effects an operation performs on the server/connection are recorded
explicitly, so "no statement is sent and no state is changed" is the
statement that the effect list is empty. -/

/-- Errors raised by the magic entry points. -/
inductive MagicErr
  | needConnect        -- RuntimeError "need to connect first (type '%pg_connect')"
  | tpl (e : TplErr)   -- an error propagating out of the substitution engine
deriving DecidableEq

/-- Effects on the connection. -/
inductive Effect
  | execute (text : String) (args : List PyVal)
  | rollback
  | commit
deriving DecidableEq

/-- `_dbconn`: return the stored connection or raise `RuntimeError`. -/
def dbconnOf : Option Nat → Except MagicErr Nat
  | none => .error .needConnect
  | some c => .ok c

/-- `pg_rollback`: `self._dbconn().rollback()`. -/
def pg_rollback (conn : Option Nat) : Except MagicErr Unit × List Effect :=
  match dbconnOf conn with
  | .error e => (.error e, [])
  | .ok _ => (.ok (), [.rollback])

/-- `pg_commit`: `self._dbconn().commit()`. -/
def pg_commit (conn : Option Nat) : Except MagicErr Unit × List Effect :=
  match dbconnOf conn with
  | .error e => (.error e, [])
  | .ok _ => (.ok (), [.commit])

/-- `pg_cursor`: `self._dbconn().cursor()` — a cursor on the connection. -/
def pg_cursor (conn : Option Nat) : Except MagicErr Nat :=
  dbconnOf conn

/-- `pg_connection`: `self._dbconn()`. -/
def pg_connection (conn : Option Nat) : Except MagicErr Nat :=
  dbconnOf conn

/-- `query` on a plain-string statement: first the substitution step
(lines 285–289, before the `try` block), then `self.pg_cursor()` (which
raises `RuntimeError` via `_dbconn` when no connection is open), then
`cur.execute(sql, args)`.  The second component lists the statements that
reached the driver. -/
def query (conn : Option Nat) (ctx : Ctx) (sql : String) :
    Except MagicErr (String × List PyVal) × List Effect :=
  match querySubst sql ctx with
  | .error e => (.error (.tpl e), [])
  | .ok (txt, args) =>
    match pg_cursor conn with
    | .error e => (.error e, [])
    | .ok _ => (.ok (txt, args), [.execute txt args])

/-!
### Shared concrete evaluation contexts for the theorems below
-/

/-- The empty evaluation context: every expression fails to evaluate. -/
def ctxEmpty : Ctx := fun _ => none

/-- Context binding `foo` to the integer 7. -/
def ctxFoo : Ctx := fun n => if n = "foo" then some (.int 7) else none

/-- Context binding `x` to the integer 7. -/
def ctxX : Ctx := fun n => if n = "x" then some (.int 7) else none

/-- Context binding both `a:b` and `a`, so that a colon-carrying
placeholder body could be evaluated if the engine ever tried to. -/
def ctxAB : Ctx := fun n =>
  if n = "a:b" then some (.int 1) else if n = "a" then some (.int 2) else none

/-- Context binding `x` and `y` to given values and `t` to the qualified
name string `s.t`. -/
def ctx3 (v w : PyVal) : Ctx := fun n =>
  if n = "x" then some v
  else if n = "y" then some w
  else if n = "t" then some (.str "s.t")
  else none

/-!
### Auxiliary lemmas about the cancellation monitor
-/

/-- Every interrupt the loop consumes triggers exactly one
`conn.cancel()` call: the interrupts of a trace split into the cancels
performed plus the interrupts of the unconsumed remainder. -/
theorem wait_select_cancel_count (t : List Step) :
    interruptsIn t = (wait_select t).cancels + interruptsIn (wait_select t).rest := by
  induction t with
  | nil => simp [wait_select, interruptsIn]
  | cons s rest ih =>
    obtain ⟨sp, sw⟩ := s
    cases sw with
    | quiet => cases sp <;> simp [wait_select, interruptsIn] <;> omega
    | interrupted b =>
      cases b <;> cases sp <;> simp [wait_select, interruptsIn] <;> omega

/-- When no cancel attempt raises, the loop never ends with a cancel
error: interrupts are fully consumed, and termination happens only
through a poll result (`POLL_OK`, a bad state, or a poll-raised server
error) or by exhausting the trace. -/
theorem wait_select_no_cancelError (t : List Step)
    (h : noCancelFail t = true) :
    (wait_select t).outcome ≠ Outcome.cancelError := by
  induction t with
  | nil => simp [wait_select]
  | cons s rest ih =>
    obtain ⟨sp, sw⟩ := s
    cases sw with
    | quiet =>
      have h2 : noCancelFail rest = true := by
        simpa [noCancelFail, List.all_cons] using h
      cases sp <;> simp [wait_select] <;> exact ih h2
    | interrupted b =>
      cases b with
      | false =>
        have h2 : noCancelFail rest = true := by
          simpa [noCancelFail, List.all_cons] using h
        cases sp <;> simp [wait_select] <;> exact ih h2
      | true =>
        exfalso
        simp [noCancelFail, List.all_cons] at h

/-!
### Claim theorems
-/

/-- C2 (counterexample): the claim says an error raised while issuing the
cancel request is swallowed, never surfaced, and the loop continues.  On
the trace where the first poll asks for reads, an interrupt arrives
during the wait and `conn.cancel()` raises, the loop instead ends with
the cancel error as its outcome and the following poll step (which would
have reported completion) is left unconsumed — the error surfaces and the
loop does not continue. -/
theorem c2_cancel_error_swallowed_false :
    wait_select [⟨.read, .interrupted true⟩, ⟨.ok, .quiet⟩] =
      ⟨.cancelError, 1, 1, [⟨.ok, .quiet⟩]⟩ := by
  decide

/-- C2 (amended): `conn.cancel()` is called inside the
`except KeyboardInterrupt` handler with nothing around it, so an error it
raises propagates out of the loop as the loop's result and polling stops;
only when the cancel request returns normally is the interrupt fully
consumed and the polling loop continues (with exactly one cancel attempt
recorded). -/
theorem c2_cancel_error_propagates (rest : List Step) (b : Bool) :
    (wait_select (⟨.read, .interrupted b⟩ :: rest)).outcome =
      (if b then Outcome.cancelError else (wait_select rest).outcome) ∧
    (wait_select (⟨.read, .interrupted b⟩ :: rest)).cancels =
      (if b then 1 else (wait_select rest).cancels + 1) ∧
    (wait_select (⟨.write, .interrupted b⟩ :: rest)).outcome =
      (if b then Outcome.cancelError else (wait_select rest).outcome) := by
  cases b <;> simp [wait_select]

/-- C4 (counterexample): the claim requires, for every trace, that after
an interrupt during a readiness wait the loop does not terminate until a
subsequent poll reports complete or a fatal state.  On the one-step trace
where the poll asks for writes, an interrupt arrives during the wait and
the cancel request raises, the loop terminates at once with the cancel
error — no subsequent poll happened at all. -/
theorem c4_interrupt_trace_false :
    wait_select [⟨.write, .interrupted true⟩] = ⟨.cancelError, 1, 1, []⟩ := by
  decide

/-- C4 (amended): provided no cancel attempt raises, every interrupt the
loop consumes triggers exactly one cancel request (the interrupts of the
trace are exactly the cancels performed plus the interrupts of the
unconsumed remainder), the interrupt itself never propagates past the
loop (there is no interrupt outcome: the handler always consumes it), and
the loop never terminates on account of the interrupt — its outcome is
never the cancel error, so it ends only through a poll reporting
completion, a bad state, or a poll-raised server error (or runs on). -/
theorem c4_interrupt_cancel_once (t : List Step)
    (h : noCancelFail t = true) :
    (wait_select t).outcome ≠ Outcome.cancelError ∧
    interruptsIn t = (wait_select t).cancels + interruptsIn (wait_select t).rest := by
  exact ⟨wait_select_no_cancelError t h, wait_select_cancel_count t⟩

/-- Witness for C4: on the concrete trace read-wait-interrupted (cancel
succeeding) followed by a completing poll, the loop does not end with a
cancel error and performs exactly the one cancel for its one interrupt. -/
theorem c4_interrupt_cancel_once_witness :
    (wait_select [⟨.read, .interrupted false⟩, ⟨.ok, .quiet⟩]).outcome ≠
        Outcome.cancelError ∧
    interruptsIn [⟨.read, .interrupted false⟩, ⟨.ok, .quiet⟩] =
      (wait_select [⟨.read, .interrupted false⟩, ⟨.ok, .quiet⟩]).cancels +
        interruptsIn (wait_select [⟨.read, .interrupted false⟩, ⟨.ok, .quiet⟩]).rest :=
  c4_interrupt_cancel_once [⟨.read, .interrupted false⟩, ⟨.ok, .quiet⟩] (by decide)

/-- C7: on the trace needs-read, needs-read, complete with no interrupt,
the monitor returns normally after exactly two readiness waits, makes no
cancel request, and consumes exactly those three poll steps. -/
theorem c7_read_read_complete :
    wait_select [⟨.read, .quiet⟩, ⟨.read, .quiet⟩, ⟨.ok, .quiet⟩] =
      ⟨.done, 2, 0, []⟩ := by
  decide

/-- C9: when the green-mode flag is set (the cancellation wait strategy
is active), `pg_copy` deactivates the strategy before the upload runs and
its `finally` block reactivates it on both exit paths — normal completion
and the error path (which also rolls back and re-raises) alike — so the
strategy is active again after the command regardless of how the upload
ended. -/
theorem c9_green_mode_restored (activeBefore uploadOk : Bool) :
    (pg_copy true activeBefore uploadOk).activeDuringUpload = false ∧
    (pg_copy true activeBefore uploadOk).activeAfter = true ∧
    (pg_copy true activeBefore uploadOk).raised = !uploadOk ∧
    (pg_copy true activeBefore uploadOk).rolledBack = !uploadOk := by
  cases uploadOk <;> simp [pg_copy]

/-- C10 (counterexample): the claim says `query` raises the
connect-first `RuntimeError` whenever no connection is open.  But `query`
runs template substitution before it ever asks for a connection, so with
no connection and a statement whose placeholder expression fails to
evaluate, the error raised is the substitution error, not the
`RuntimeError` — though still nothing is sent. -/
theorem c10_query_runtimeerror_false :
    query none ctxEmpty "$\x7bmissing\x7d" =
      (.error (.tpl (.evalError "missing")), []) ∧
    (query none ctxEmpty "$\x7bmissing\x7d").1 ≠ .error .needConnect := by
  decide

/-- C10 (amended): with no open connection, `pg_rollback`, `pg_commit`,
`pg_cursor` and `pg_connection` raise the connect-first `RuntimeError`
through `_dbconn` and perform no effect; `query` performs no effect
either and raises the same `RuntimeError` provided its template
substitution step succeeds — substitution runs first, so a substitution
error preempts the connection check. -/
theorem c10_need_connect (ctx : Ctx) (sql : String) :
    pg_rollback none = (.error .needConnect, []) ∧
    pg_commit none = (.error .needConnect, []) ∧
    pg_cursor none = .error .needConnect ∧
    pg_connection none = .error .needConnect ∧
    (query none ctx sql).2 = [] ∧
    (∀ r : String × List PyVal, querySubst sql ctx = .ok r →
      query none ctx sql = (.error .needConnect, [])) := by
  refine ⟨rfl, rfl, rfl, rfl, ?_, ?_⟩
  · cases h : querySubst sql ctx with
    | error e => simp [query, h]
    | ok r => obtain ⟨txt, args⟩ := r; simp [query, h, pg_cursor, dbconnOf]
  · intro r h
    obtain ⟨txt, args⟩ := r
    simp [query, h, pg_cursor, dbconnOf]

/-- Witness for C10 (amended): with no connection, every
connection-requiring operation — including `query` on a statement whose
substitution succeeds — raises the connect-first error and sends
nothing. -/
theorem c10_need_connect_witness :
    pg_rollback none = (.error .needConnect, []) ∧
    pg_commit none = (.error .needConnect, []) ∧
    pg_cursor none = .error .needConnect ∧
    pg_connection none = .error .needConnect ∧
    query none ctxEmpty "select 1" = (.error .needConnect, []) := by
  have h := c10_need_connect ctxEmpty "select 1"
  exact ⟨h.1, h.2.1, h.2.2.1, h.2.2.2.1,
    h.2.2.2.2.2 ("select 1", []) (by decide)⟩

/-- C1 (counterexample): the claim says `$$\x7bfoo\x7d` always appears in
the rewritten output as the literal `$\x7bfoo\x7d`.  Instead: on the text
consisting of just the escaped sequence, substitution raises (the regex
skips the escape, nothing rewrites `$$` to `$`, and the final format pass
rejects the leftover brace field as an unknown keyword); and on a text
also containing the placeholder `$\x7bfoo\x7d`, the `str.replace`
rewriting corrupts the escaped occurrence into `$` followed by the `%s`
marker. -/
theorem c1_escape_passthrough_false :
    querySubst "$$\x7bfoo\x7d" ctxFoo = .error (.keyError "foo") ∧
    querySubst "$\x7bfoo\x7d $$\x7bfoo\x7d" ctxFoo = .ok ("%s $%s", [.int 7]) := by
  decide

/-- C1 (amended): the regex with its negative lookbehind never matches
`$$\x7bfoo\x7d` as a placeholder, but the engine does not pass the
escaped sequence through with one fewer dollar: when no placeholder
shares its inner text the final `SQL(txt).format` pass raises a
`KeyError` on the leftover `\x7bfoo\x7d` field (for every evaluation
context), and when the placeholder `$\x7bfoo\x7d` also occurs the escaped
occurrence is itself rewritten to `$` followed by the parameter
marker. -/
theorem c1_escape_skipped_not_passed_through : ∀ ctx : Ctx,
    findall "$$\x7bfoo\x7d" = [] ∧
    pythonTpl "$$\x7bfoo\x7d" ctx = .error (.keyError "foo") ∧
    ∀ v : PyVal,
      querySubst "$\x7bfoo\x7d $$\x7bfoo\x7d"
          (fun n => if n = "foo" then some v else none) =
        .ok ("%s $%s", [v]) := by
  intro ctx
  exact ⟨rfl, rfl, fun v => rfl⟩

/-- C3 (counterexample): the claim asserts, for every input text, that
the bound values match the `%s` markers of the rewritten text one for
one, and that a text with exactly one parameter-style placeholder yields
exactly one marker.  The text `$\x7bx\x7d $$\x7bx\x7d` contains exactly
one placeholder (the escaped occurrence is not matched), yet rewriting
yields two `%s` markers against a one-element bound list, because
`str.replace` also rewrites the escaped occurrence. -/
theorem c3_marker_invariant_false :
    querySubst "$\x7bx\x7d $$\x7bx\x7d" ctxX = .ok ("%s $%s", [.int 7]) ∧
    findall "$\x7bx\x7d $$\x7bx\x7d" = [("x", "")] ∧
    countMarkers "%s $%s" = 2 := by
  decide

/-- C3 (amended): the marker/bound-value correspondence fails on texts
where an escaped `$$\x7b...\x7d` shares a placeholder's text (and
likewise on pre-existing `%s`); it holds on collision-free texts: a text
whose single placeholder `$\x7bx\x7d` evaluates to `v` rewrites to
exactly one `%s` marker with bound list `[v]`; a literal placeholder
`$\x7by:s\x7d` splices the quoted literal into the text and binds
nothing; and an identifier placeholder is spliced as the quoted
dot-joined name, leaving the markers and bound values of the remaining
parameter placeholders in matching count and order. -/
theorem c3_marker_invariant_instances : ∀ v w : PyVal,
    querySubst "select * from t where id = $\x7bx\x7d" (ctx3 v w) =
      .ok ("select * from t where id = %s", [v]) ∧
    countMarkers "select * from t where id = %s" = 1 ∧
    querySubst "select $\x7by:s\x7d" (ctx3 v w) =
      .ok ("select " ++ litQuote w, []) ∧
    querySubst "select a from $\x7bt:i\x7d where id = $\x7bx\x7d" (ctx3 v w) =
      .ok ("select a from \"s\".\"t\" where id = %s", [v]) ∧
    countMarkers "select a from \"s\".\"t\" where id = %s" = 1 := by
  intro v w
  exact ⟨rfl, by decide, rfl, rfl, by decide⟩

/-- C5: an error raised by the substitution step — an expression
evaluation failure or the format-pass rejection triggered by an
unsupported format tag — propagates out of `query` before a cursor is
ever requested: it is surfaced unchanged to the caller and no statement
reaches the driver. -/
theorem c5_subst_error_aborts (conn : Option Nat) (ctx : Ctx)
    (sql : String) (e : TplErr) (h : querySubst sql ctx = .error e) :
    query conn ctx sql = (.error (.tpl e), []) := by
  simp [query, h]

/-- Witness for C5: with an open connection, a statement with the
unsupported format tag `:z` and one whose placeholder expression fails to
evaluate both abort with the substitution error and send nothing. -/
theorem c5_subst_error_aborts_witness :
    querySubst "checkout $\x7bx:z\x7d" ctxEmpty = .error .specError ∧
    query (some 0) ctxEmpty "checkout $\x7bx:z\x7d" =
      (.error (.tpl .specError), []) ∧
    querySubst "$\x7bmissing\x7d" ctxEmpty = .error (.evalError "missing") ∧
    query (some 0) ctxEmpty "$\x7bmissing\x7d" =
      (.error (.tpl (.evalError "missing")), []) :=
  ⟨by decide,
   c5_subst_error_aborts (some 0) ctxEmpty "checkout $\x7bx:z\x7d" .specError
     (by decide),
   by decide,
   c5_subst_error_aborts (some 0) ctxEmpty "$\x7bmissing\x7d"
     (.evalError "missing") (by decide)⟩

/-- C6 (counterexample): the claim says a placeholder whose expression
text contains a colon (not followed by a recognized tag at the closing
brace) still becomes a query parameter.  On `select $\x7ba:b\x7d` — even
with both `a:b` and `a` bound in the evaluation context — the regex
matches nothing, no value is bound, and the engine raises the format
error for the leftover `a:b` field instead of producing a marker. -/
theorem c6_colon_expr_parameter_false :
    findall "select $\x7ba:b\x7d" = [] ∧
    querySubst "select $\x7ba:b\x7d" ctxAB = .error .specError := by
  decide

/-- C6 (amended): a `$\x7b...\x7d` occurrence whose body contains a colon
not forming the exact `:s` or `:i` suffix immediately before the closing
brace is not matched as a placeholder at all — the expression is never
evaluated and nothing is bound — and the subsequent format pass raises an
error on the leftover brace field, for every evaluation context; only
colon-free bodies (which do become query parameters) and the exact
`:s`/`:i` suffixes are matched. -/
theorem c6_colon_prevents_match : ∀ ctx : Ctx,
    findall "select $\x7ba:b\x7d" = [] ∧
    pythonTpl "select $\x7ba:b\x7d" ctx = .error .specError ∧
    findall "select $\x7ba:sb\x7d" = [] ∧
    findall "$\x7bab\x7d" = [("ab", "")] ∧
    findall "$\x7ba:s\x7d" = [("a", "s")] ∧
    findall "$\x7ba:i\x7d" = [("a", "i")] := by
  intro ctx
  exact ⟨rfl, rfl, rfl, rfl, rfl, rfl⟩

/-- C8: a text without the substring `$\x7b` — hence without any
`$\x7b...\x7d` occurrence — is returned unchanged with an empty
bound-value list (the guard in `query` skips `_python_tpl` entirely), and
running the substitution step again on that unchanged result is a no-op,
for any pair of evaluation contexts. -/
theorem c8_no_placeholder_identity (sql : String) (ctx ctx2 : Ctx)
    (h : containsDollarBrace sql = false) :
    querySubst sql ctx = .ok (sql, []) ∧
    (match querySubst sql ctx with
     | .ok r => querySubst r.1 ctx2
     | .error e => .error e) = .ok (sql, []) := by
  have h1 : querySubst sql ctx = .ok (sql, []) := by simp [querySubst, h]
  refine ⟨h1, ?_⟩
  rw [h1]
  simp [querySubst, h]

/-- Witness for C8: the placeholder-free statement `select 1` passes
through substitution unchanged, twice. -/
theorem c8_no_placeholder_identity_witness :
    querySubst "select 1" ctxEmpty = .ok ("select 1", []) ∧
    (match querySubst "select 1" ctxEmpty with
     | .ok r => querySubst r.1 ctxEmpty
     | .error e => .error e) = .ok ("select 1", []) :=
  c8_no_placeholder_identity "select 1" ctxEmpty ctxEmpty (by decide)

end IpyPg
